import Mathlib

/-!
Verification of the Whisper-Voice-Input repository core.

Shallow embedding of the Python sources:
  src/recognition/cleanup.py    (cleanup_text)
  src/recognition/base.py       (RecognitionResult)
  src/recognition/whisper_local.py, src/recognition/whisper_api.py
  src/audio/recorder.py         (AudioRecorder)
  src/audio/processor.py        (validate_audio)
  src/input/hotkey.py           (HotkeyManager)
  src/app.py                    (VoiceInputApp)

Strings are modelled as Lean String values; Python regular-expression
substitutions used by cleanup.py are implemented directly on the character
list, following CPython re.sub semantics (leftmost, non-overlapping,
left-to-right scan) specialised to the fixed patterns of the source file.
Python str is Unicode; the character classes below implement the ASCII
fragment, which is exact on every string the program and the spec exercise.
-/

namespace WhisperVoiceInput

-- Character classes used by the regular expressions of cleanup.py.
-- Python \s (ASCII fragment).
def isSpaceChar (c : Char) : Bool :=
  c = ' ' || c = '\t' || c = '\n' || c = '\x0d' || c = '\x0b' || c = '\x0c'

-- Python \w (ASCII fragment): letters, digits, underscore.
def isWordChar (c : Char) : Bool :=
  c.isAlphanum || c = '_'

-- The punctuation class [.,!?;:] used throughout cleanup.py.
def isPunctChar (c : Char) : Bool :=
  c = '.' || c = ',' || c = '!' || c = '?' || c = ';' || c = ':'

-- Sentence-ending punctuation class [.!?].
def isSentenceEnd (c : Char) : Bool :=
  c = '.' || c = '!' || c = '?'

-- FILLER_WORDS from src/config/constants.py lines 55-58.
def FILLER_WORDS : List String :=
  ["um", "uh", "er", "ah", "like", "you know", "i mean",
   "basically", "actually", "literally", "so", "well"]

-- Case-insensitive literal match (re.IGNORECASE on an ASCII literal):
-- consume the pattern chars from s, comparing lower-cased input chars
-- against the (already lower-case) pattern; return the rest on success.
def consumeCI : List Char → List Char → Option (List Char)
  | [], s => some s
  | _ :: _, [] => none
  | p :: ps, c :: cs => if c.toLower = p then consumeCI ps cs else none

/--
One attempted match of the pattern  \b f \b ,? \s*  (re.IGNORECASE) at the
head of s, where f is one of FILLER_WORDS (nonempty, starts and ends with a
word character).  The word boundary before f is checked by the caller.
On success returns (prevIsWord, rest): rest is the input after the whole
match, and prevIsWord tells whether the last character consumed by the
match is a word character (needed for the \b test at the resume position).
-/
def matchFiller (f : List Char) (s : List Char) : Option (Bool × List Char) :=
  match consumeCI f s with
  | none => none
  | some rest =>
    -- trailing \b: the next char must not be a word char (f ends in one)
    if (rest.head?.map isWordChar).getD false then none
    else
      match rest with
      | ',' :: t => some (false, t.dropWhile isSpaceChar)
      | _ =>
        if (rest.head?.map isSpaceChar).getD false then
          some (false, rest.dropWhile isSpaceChar)
        else
          some (true, rest)

/--
re.sub(rf"\b{filler}\b,?\s*", "", s, flags=re.IGNORECASE): scan left to
right, deleting every non-overlapping match; prevIsWord is whether the
character just before the current position (in the original string) is a
word character (false at the start of the string).  Fuel-structural; fuel
at least the length of s suffices since every step consumes a character.
-/
def subFillerAux (f : List Char) : Nat → Bool → List Char → List Char
  | 0, _, s => s
  | _ + 1, _, [] => []
  | fuel + 1, prevIsWord, c :: t =>
    if prevIsWord then
      c :: subFillerAux f fuel (isWordChar c) t
    else
      match matchFiller f (c :: t) with
      | some (pw, rest) => subFillerAux f fuel pw rest
      | none => c :: subFillerAux f fuel (isWordChar c) t

def subFiller (f : String) (s : List Char) : List Char :=
  subFillerAux f.data (s.length + 1) false s

-- re.sub(r"\s+", " ", s): each maximal whitespace run becomes one space.
-- The flag records whether we are inside a whitespace run already emitted.
def collapseWsAux : Bool → List Char → List Char
  | _, [] => []
  | inRun, c :: t =>
    if isSpaceChar c then
      if inRun then collapseWsAux true t else ' ' :: collapseWsAux true t
    else
      c :: collapseWsAux false t

def collapseWs (s : List Char) : List Char := collapseWsAux false s

/--
re.sub(r"\s+([.,!?;:])", r"\1", s): a maximal whitespace run immediately
followed by a punctuation char is replaced by that punctuation char; the
scan resumes after the punctuation char.  Fuel-structural.
-/
def rmWsBeforePunct : Nat → List Char → List Char
  | 0, s => s
  | _ + 1, [] => []
  | fuel + 1, c :: t =>
    if isSpaceChar c then
      match (c :: t).dropWhile isSpaceChar with
      | p :: t2 =>
        if isPunctChar p then p :: rmWsBeforePunct fuel t2
        else c :: rmWsBeforePunct fuel t
      | [] => c :: rmWsBeforePunct fuel t
    else
      c :: rmWsBeforePunct fuel t

/--
re.sub(r"([.,!?;:])([A-Za-z])", r"\1 \2", s): insert a space between a
punctuation char and an immediately following ASCII letter; the scan
resumes after the letter.  Fuel-structural.
-/
def spaceAfterPunct : Nat → List Char → List Char
  | 0, s => s
  | _ + 1, [] => []
  | fuel + 1, c :: t =>
    if isPunctChar c then
      match t with
      | d :: t2 =>
        if d.isAlpha then c :: ' ' :: d :: spaceAfterPunct fuel t2
        else c :: spaceAfterPunct fuel t
      | [] => [c]
    else
      c :: spaceAfterPunct fuel t

-- Python str.strip() (ASCII whitespace fragment).
def pyStripChars (s : List Char) : List Char :=
  ((s.dropWhile isSpaceChar).reverse.dropWhile isSpaceChar).reverse

def pyStrip (s : String) : String :=
  String.mk (pyStripChars s.data)

-- Python str.lower() (ASCII fragment): lower-case every character.
def pyLower (s : String) : String :=
  String.mk (s.data.map Char.toLower)

-- result[0].upper() + result[1:] on a nonempty string.
def capFirst : List Char → List Char
  | [] => []
  | c :: t => c.toUpper :: t

/--
re.sub(r"([.!?]\s+)([a-z])", upper, s): a sentence-ending punctuation
char, then a nonempty maximal whitespace run, then a lower-case ASCII
letter; the letter is upper-cased, everything else kept; the scan resumes
after the letter.  Fuel-structural.
-/
def capAfterSentence : Nat → List Char → List Char
  | 0, s => s
  | _ + 1, [] => []
  | fuel + 1, c :: t =>
    if isSentenceEnd c then
      match t.dropWhile isSpaceChar, t.takeWhile isSpaceChar with
      | d :: t2, sp =>
        if sp ≠ [] ∧ d.isLower then
          c :: (sp ++ d.toUpper :: capAfterSentence fuel t2)
        else
          c :: capAfterSentence fuel t
      | [], _ => c :: capAfterSentence fuel t
    else
      c :: capAfterSentence fuel t

/--
re.sub(r"([.,!?;:])\1+", r"\1", s): a run of two or more copies of the
same punctuation char collapses to one; the scan resumes after the run.
Fuel-structural.
-/
def collapseDupPunct : Nat → List Char → List Char
  | 0, s => s
  | _ + 1, [] => []
  | fuel + 1, c :: t =>
    if isPunctChar c ∧ t.head? = some c then
      c :: collapseDupPunct fuel (t.dropWhile (· = c))
    else
      c :: collapseDupPunct fuel t

-- re.sub(r"^[.,!?;:\s]+", "", s): strip leading punctuation and whitespace.
def rmLeadingOrphan (s : List Char) : List Char :=
  s.dropWhile (fun c => isPunctChar c || isSpaceChar c)

/--
cleanup_text from src/recognition/cleanup.py lines 7-70, step by step in
source order: filler removal for each FILLER_WORDS entry, whitespace
collapse, space-before-punctuation removal, space-after-punctuation
insertion, strip, first-letter capitalisation, capitalisation after
sentence punctuation, duplicate-punctuation collapse, leading-orphan
removal.
-/
def cleanup_text (text : String) : String :=
  if text = "" then ""
  else
    let r0 := FILLER_WORDS.foldl (fun acc f => subFiller f acc) text.data
    let r1 := collapseWs r0
    let r2 := rmWsBeforePunct (r1.length + 1) r1
    let r3 := spaceAfterPunct (r2.length + 1) r2
    let r4 := pyStripChars r3
    let r5 := capFirst r4
    let r6 := capAfterSentence (r5.length + 1) r5
    let r7 := collapseDupPunct (r6.length + 1) r6
    let r8 := rmLeadingOrphan r7
    String.mk r8

/-!
Recognition results and backends
(src/recognition/base.py, whisper_local.py, whisper_api.py).
Rationals stand in for Python floats; Option String for str | None.
-/

/--
RecognitionResult from src/recognition/base.py lines 7-21: text, optional
detected language, optional confidence, optional error message.
-/
structure RecognitionResult where
  text : String
  language : Option String := none
  confidence : Option ℚ := none
  error : Option String := none
deriving DecidableEq, Repr

/--
The success flag computed in RecognitionResult.__init__ (base.py line 21):
error is None and bool(text.strip()).
-/
def RecognitionResult.success (r : RecognitionResult) : Bool :=
  r.error.isNone && pyStrip r.text ≠ ""

/--
Language mapping of LocalWhisperRecognizer.transcribe (whisper_local.py
lines 72-76): lang = None; if language and language != "en": lang =
language.split("-")[0] if "-" in language else language.  The value
returned here is passed verbatim as the language argument of the engine
call (line 83); none means auto-detect.  split("-")[0] is the longest
hyphen-free leading segment, which also equals the whole string when no
hyphen occurs, so one takeWhile covers both branches of the conditional.
-/
def localLanguageArg (language : Option String) : Option String :=
  match language with
  | none => none
  | some l =>
    if l ≠ "" ∧ l ≠ "en" then some (String.mk (l.data.takeWhile (· != '-')))
    else none

/--
Language mapping of APIWhisperRecognizer.transcribe (whisper_api.py lines
56-59), identical text to the local variant.
-/
def apiMapLanguage (language : Option String) : Option String :=
  match language with
  | none => none
  | some l =>
    if l ≠ "" ∧ l ≠ "en" then some (String.mk (l.data.takeWhile (· != '-')))
    else none

/--
The language constraint actually sent to the remote API (whisper_api.py
lines 62-68): the kwargs dict gets a language key only when lang is
truthy, so none and the empty string both mean no constraint.
-/
def apiLanguageArg (language : Option String) : Option String :=
  match apiMapLanguage language with
  | none => none
  | some l => if l = "" then none else some l

/--
Mutable state of LocalWhisperRecognizer (whisper_local.py lines 19-22).
The cached engine handle self._model is opaque to this development; all
the code ever does with it is test it against None and create it under
the current model name, so it is modelled by the name it was loaded
under: model = some n stands for a handle loaded under model name n.
-/
structure LocalWhisperRecognizer where
  model_name : String
  model : Option String := none
  loading : Bool := false
deriving DecidableEq, Repr

/--
LocalWhisperRecognizer.set_model (whisper_local.py lines 53-58): a
different name replaces the configured name and drops the cached handle;
the same name changes nothing.
-/
def set_model (s : LocalWhisperRecognizer) (model_name : String) :
    LocalWhisperRecognizer :=
  if model_name ≠ s.model_name then
    { s with model_name := model_name, model := none }
  else s

/--
LocalWhisperRecognizer._load_model (whisper_local.py lines 24-51).  The
WhisperModel constructor is external and may fail; loadOk says whether it
would succeed.  Returns the bool result of the method and the state after
it: cached handle reused if present, reentrant call rejected while
loading, otherwise the handle is created under the current model name
(the finally clause clears the loading flag on both outcomes).
-/
def load_model (loadOk : Bool) (s : LocalWhisperRecognizer) :
    Bool × LocalWhisperRecognizer :=
  if s.model.isSome then (true, s)
  else if s.loading then (false, s)
  else if loadOk then
    (true, { s with model := some s.model_name, loading := false })
  else (false, { s with loading := false })

/--
The cache invariant of the local recognizer: a cached handle, when
present, was loaded under the currently configured model name.
-/
def cacheInv (s : LocalWhisperRecognizer) : Prop :=
  ∀ n, s.model = some n → n = s.model_name

/-!
Audio capture and validation (src/audio/recorder.py, src/audio/processor.py).
Sample values are float32 in the source, modelled exactly as rationals; a
chunk is one callback delivery (one numpy array), the session buffer is the
list of chunks in delivery order.
-/

/--
Mutable state of AudioRecorder (recorder.py lines 21-27) relevant to the
capture contract: the recording flag and the accumulated chunk list.  The
stream handle, device and level callback are external I/O resources.
-/
structure RecorderState where
  recording : Bool := false
  audio_data : List (List ℚ) := []
deriving DecidableEq, Repr

/--
The finished recording assembled by AudioRecorder.stop (recorder.py lines
128 and 143): the concatenation of all chunks and its duration
len(audio) / SAMPLE_RATE in seconds.
-/
structure FinishedRecording where
  samples : List ℚ
  duration : ℚ
deriving DecidableEq, Repr

-- SAMPLE_RATE from src/config/constants.py line 11.
def SAMPLE_RATE : ℚ := 16000

/--
AudioRecorder._audio_callback (recorder.py lines 52-72): under the lock,
a chunk is appended only while the recording flag is set; chunks arriving
after a stop request are dropped.  (The level computation at lines 69-72
is a pure observation and does not change the state.)
-/
def audioCallback (chunk : List ℚ) (s : RecorderState) : RecorderState :=
  if s.recording then { s with audio_data := s.audio_data ++ [chunk] }
  else s

/--
AudioRecorder.start (recorder.py lines 74-105): a no-op while recording,
otherwise clears the chunk list and sets the flag (stream opening is
external I/O).
-/
def recorderStart (s : RecorderState) : RecorderState :=
  if s.recording then s
  else { recording := true, audio_data := [] }

/--
AudioRecorder.stop (recorder.py lines 107-147): returns None when not
recording; otherwise clears the flag, and if no chunks were captured
returns None, else concatenates the chunks, empties the buffer and
returns the finished recording with duration len(audio) / SAMPLE_RATE.
(The source returns the path of a temp WAV file holding exactly these
samples; the recording itself is returned here.)
-/
def recorderStop (s : RecorderState) : Option FinishedRecording × RecorderState :=
  if ¬ s.recording then (none, s)
  else
    let s1 : RecorderState := { s with recording := false }
    if s1.audio_data = [] then (none, s1)
    else
      let audio := s1.audio_data.flatten
      (some ⟨audio, (audio.length : ℚ) / SAMPLE_RATE⟩,
       { recording := false, audio_data := [] })

/--
AudioRecorder.cancel (recorder.py lines 154-165): clears the flag and
discards all buffered chunks.
-/
def recorderCancel (_ : RecorderState) : RecorderState :=
  { recording := false, audio_data := [] }

/--
The float32 to int16 conversion (audio * 32767).astype(np.int16) at
recorder.py line 140, for in-range samples: multiply by 32767 and
truncate toward zero (C cast semantics on in-range values).
-/
def toInt16 (q : ℚ) : ℤ :=
  if 0 ≤ q * 32767 then ⌊q * 32767⌋ else ⌈q * 32767⌉

-- The int16 samples written to the WAV file handed to validate_audio.
def wavSamples (fin : FinishedRecording) : List ℤ :=
  fin.samples.map toInt16

-- np.abs(audio).mean() over int16 WAV samples, as an exact rational.
def meanAbsAmplitude (samples : List ℤ) : ℚ :=
  ((samples.map Int.natAbs).sum : ℚ) / (samples.length : ℚ)

/--
validate_audio from src/audio/processor.py lines 14-28, on the int16
sample array read back from the WAV file: reject when the length is below
int(SAMPLE_RATE * 0.5) = 8000 samples, reject when the mean absolute
amplitude is below 10, accept otherwise.
-/
def validate_samples (samples : List ℤ) : Bool :=
  if samples.length < 8000 then false
  else if meanAbsAmplitude samples < 10 then false
  else true

/-!
Global hotkey handling (src/input/hotkey.py).  Key tokens are the
normalized strings produced by HotkeyManager._normalize_key; the pressed
set is a Python set of such tokens, modelled as a duplicate-free list.
-/

/--
The hotkey configuration dict (hotkey.py set_hotkey docstring): modifier
flags ctrl, shift, alt and the primary key token.  An unset configuration
(the empty dict, falsy in _check_hotkey) is Option.none at use sites.
-/
structure Hotkey where
  ctrl : Bool
  shift : Bool
  alt : Bool
  key : String
deriving DecidableEq, Repr

/--
HotkeyManager._check_hotkey (hotkey.py lines 32-75) on a pressed-key set:
an empty configuration never matches; a modifier flag must equal the
presence of that modifier, where ctrl counts tokens ctrl_l and ctrl_r,
shift counts shift_l, shift_r and shift, alt counts alt_l, alt_r and alt
(lines 60-62); a nonempty lower-cased primary key token must itself be
pressed (lines 51 and 72).  (The required set built at lines 37-53 is
dead code in the source: it is never read afterwards.)
-/
def check_hotkey (hotkey : Option Hotkey) (pressed : List String) : Bool :=
  match hotkey with
  | none => false
  | some h =>
    let key_name := pyLower h.key
    let ctrl_pressed := pressed.contains "ctrl_l" || pressed.contains "ctrl_r"
    let shift_pressed := pressed.contains "shift_l" || pressed.contains "shift_r"
      || pressed.contains "shift"
    let alt_pressed := pressed.contains "alt_l" || pressed.contains "alt_r"
      || pressed.contains "alt"
    if h.ctrl != ctrl_pressed then false
    else if h.shift != shift_pressed then false
    else if h.alt != alt_pressed then false
    else if key_name ≠ "" ∧ ¬ pressed.contains key_name then false
    else true

-- A normalized key event delivered by the listener.
inductive KeyEvent where
  | down (tok : String)
  | up (tok : String)
deriving DecidableEq, Repr

/--
Listener state of HotkeyManager: the pressed-key set and the number of
callback invocations dispatched so far (each _on_press that matches
starts one callback thread, hotkey.py lines 83-85).
-/
structure ListenerState where
  pressed : List String := []
  fires : Nat := 0
deriving DecidableEq, Repr

/--
HotkeyManager._on_press (hotkey.py lines 77-85): add the token to the
pressed set, then dispatch the callback whenever the whole set matches
the configured hotkey.
-/
def on_press (hotkey : Option Hotkey) (s : ListenerState) (tok : String) :
    ListenerState :=
  let pressed := s.pressed.insert tok
  { pressed := pressed,
    fires := s.fires + if check_hotkey hotkey pressed then 1 else 0 }

/--
HotkeyManager._on_release (hotkey.py lines 87-91): discard the token from
the pressed set.
-/
def on_release (s : ListenerState) (tok : String) : ListenerState :=
  { s with pressed := s.pressed.erase tok }

def listenerStep (hotkey : Option Hotkey) (s : ListenerState) :
    KeyEvent → ListenerState
  | .down tok => on_press hotkey s tok
  | .up tok => on_release s tok

-- Run the listener from a fresh start over a key-event sequence.
def runListener (hotkey : Option Hotkey) (events : List KeyEvent) :
    ListenerState :=
  events.foldl (listenerStep hotkey) {}

/--
Count of the transitions into the fully-matched state along an event
sequence: events after which the pressed set matches while it did not
match before the event.  The accumulator carries the pressed set and the
matched flag before the current event (false initially, since the empty
set never matches a configured chord).
-/
def riseCountAux (hotkey : Option Hotkey) :
    List String → Bool → List KeyEvent → Nat
  | _, _, [] => 0
  | pressed, prev, e :: rest =>
    let pressed1 := (listenerStep hotkey ⟨pressed, 0⟩ e).pressed
    let m := check_hotkey hotkey pressed1
    (if m ∧ ¬ prev then 1 else 0) + riseCountAux hotkey pressed1 m rest

def riseCount (hotkey : Option Hotkey) (events : List KeyEvent) : Nat :=
  riseCountAux hotkey [] (check_hotkey hotkey []) events

/--
Count of the key-down events after whose insertion the pressed set fully
matches the configured hotkey (the accumulator is the pressed set before
the current event).
-/
def matchedDownCount (hotkey : Option Hotkey) :
    List String → List KeyEvent → Nat
  | _, [] => 0
  | pressed, .down tok :: rest =>
    let pressed1 := pressed.insert tok
    (if check_hotkey hotkey pressed1 then 1 else 0)
      + matchedDownCount hotkey pressed1 rest
  | pressed, .up tok :: rest =>
    matchedDownCount hotkey (pressed.erase tok) rest

/-!
Session coordinator (src/app.py, class VoiceInputApp).  The Qt signals
used by the coordinator (state_changed, error_occurred,
transcription_complete) are connected to same-thread slots, so an emit on
the main thread runs its handler synchronously; the emit helpers below
therefore apply the handler directly and also append the signal to an
event log so theorems can talk about what was published.  The worker
thread body _process_audio emits its result signals back to the main
thread; processAudio composes the body with the queued handler runs.
-/

-- State constants from src/config/constants.py lines 49-52.
inductive SessState where
  | idle
  | recording
  | processing
  | error
deriving DecidableEq, Repr

-- Signals published by VoiceInputApp (app.py lines 26-29) plus the final
-- text handoff inject_text (app.py line 155).
inductive AppEvent where
  | state_changed (st : SessState) (msg : String)
  | error_occurred (msg : String)
  | transcription_complete (text : String)
  | injected (text : String)
deriving DecidableEq, Repr

/--
Coordinator state of VoiceInputApp (app.py lines 37-44): the published
session state self._state, the processing flag self._processing, the
recorder, the number of background transcription threads started
(app.py lines 222-226), and the log of emitted events.
-/
structure AppState where
  state : SessState := .idle
  processing : Bool := false
  recorder : RecorderState := {}
  dispatched : Nat := 0
  log : List AppEvent := []
deriving DecidableEq, Repr

/--
state_changed.emit plus its direct-connection handler _on_state_changed
(app.py lines 130-137): records the event and stores the new state.
-/
def emit_state_changed (st : SessState) (msg : String) (s : AppState) :
    AppState :=
  { s with state := st, log := s.log ++ [.state_changed st msg] }

/--
error_occurred.emit plus its handler _on_error (app.py lines 164-170):
records the event, clears the processing flag and publishes the Error
state with the message (the 3 second auto-revert timer is external).
-/
def emit_error (msg : String) (s : AppState) : AppState :=
  emit_state_changed .error msg
    { s with processing := false, log := s.log ++ [.error_occurred msg] }

/--
transcription_complete.emit plus its handler _on_transcription_complete
(app.py lines 148-162): clears the processing flag; nonempty text is
injected and Idle("Done!") published, empty text publishes
Idle("No speech detected") (the delayed Ready messages are external
timers).
-/
def emit_transcription_complete (text : String) (s : AppState) : AppState :=
  let s0 := { s with processing := false,
                     log := s.log ++ [.transcription_complete text] }
  if text ≠ "" then
    emit_state_changed .idle "Done!"
      { s0 with log := s0.log ++ [.injected text] }
  else
    emit_state_changed .idle "No speech detected" s0

/--
VoiceInputApp._start_recording (app.py lines 191-199): a no-op when the
recorder is already recording, otherwise publishes Recording and starts
the recorder.
-/
def start_recording (s : AppState) : AppState :=
  if s.recorder.recording then s
  else
    let s1 := emit_state_changed .recording "Recording..." s
    { s1 with recorder := recorderStart s1.recorder }

/--
VoiceInputApp._stop_recording (app.py lines 201-226): a no-op when the
recorder is not recording; otherwise publishes Processing, sets the
processing flag, stops the recorder, and either reports the error "No
audio recorded" (no recording produced, or validation failed on its WAV
samples) or starts one background transcription thread.
-/
def stop_recording (s : AppState) : AppState :=
  if ¬ s.recorder.recording then s
  else
    let s1 := emit_state_changed .processing "Processing..." s
    let s2 := { s1 with processing := true }
    let out := recorderStop s2.recorder
    let s3 := { s2 with recorder := out.2 }
    match out.1 with
    | none => emit_error "No audio recorded" s3
    | some fin =>
      if ¬ validate_samples (wavSamples fin) then
        emit_error "No audio recorded" s3
      else
        { s3 with dispatched := s3.dispatched + 1 }

/--
VoiceInputApp.toggle_recording (app.py lines 178-189): ignored entirely
while the processing flag is set; otherwise stops when the published
state is Recording and starts otherwise.
-/
def toggle_recording (s : AppState) : AppState :=
  if s.processing then s
  else if s.state = .recording then stop_recording s
  else start_recording s

/--
The result handling of VoiceInputApp._process_audio (app.py lines
253-260), given the RecognitionResult returned by the selected
recognizer: a successful result has its text cleaned and emitted as
transcription_complete; any other result emits error_occurred with the
result error, or "Transcription failed" when the error field is None.
(Recognizer selection at lines 232-239 and the temp-file unlink at lines
247-251 do not touch the coordinator state.)
-/
def processAudio (result : RecognitionResult) (s : AppState) : AppState :=
  if result.success then
    emit_transcription_complete (cleanup_text result.text) s
  else
    emit_error (result.error.getD "Transcription failed") s

/-!
The chord-match characterisation written from the spec, to be compared
with the code predicate check_hotkey: each modifier flag holds exactly
when one of that modifier token variants is pressed, and the lower-cased
primary key token is pressed.
-/
def chordMatchSpec (h : Hotkey) (pressed : List String) : Prop :=
  (h.ctrl = true ↔ ("ctrl_l" ∈ pressed ∨ "ctrl_r" ∈ pressed)) ∧
  (h.shift = true ↔ ("shift_l" ∈ pressed ∨ "shift_r" ∈ pressed ∨ "shift" ∈ pressed)) ∧
  (h.alt = true ↔ ("alt_l" ∈ pressed ∨ "alt_r" ∈ pressed ∨ "alt" ∈ pressed)) ∧
  pyLower h.key ∈ pressed

-- takeWhile over an append whose first part satisfies the predicate.
theorem takeWhile_append_all {α : Type} (p : α → Bool) (l₁ l₂ : List α)
    (h : ∀ c ∈ l₁, p c = true) :
    (l₁ ++ l₂).takeWhile p = l₁ ++ l₂.takeWhile p := by
  induction l₁ with
  | nil => simp
  | cons c t ih =>
    have hc := h c (by simp)
    simp [List.takeWhile_cons, hc, ih (fun x hx => h x (by simp [hx]))]

-- The listener fold with an arbitrary starting state, for the C4 analysis.
theorem foldl_fires (hotkey : Option Hotkey) (events : List KeyEvent) :
    ∀ (p : List String) (n : Nat),
      (events.foldl (listenerStep hotkey) ⟨p, n⟩).fires
        = n + matchedDownCount hotkey p events := by
  induction events with
  | nil => intro p n; simp [matchedDownCount]
  | cons e rest ih =>
    intro p n
    cases e with
    | down tok =>
      simp only [List.foldl_cons, listenerStep, on_press, matchedDownCount]
      rw [ih]
      ring
    | up tok =>
      simp only [List.foldl_cons, listenerStep, on_release, matchedDownCount]
      rw [ih]

/--
C1: while a transcription is in flight (the processing flag is set),
toggle_recording is a no-op: the coordinator state is returned unchanged,
so no recording is started or stopped, no event is published and no
second transcription thread is dispatched.
-/
theorem toggle_recording_processing_noop (s : AppState)
    (h : s.processing = true) : toggle_recording s = s := by
  simp [toggle_recording, h]

/-- Witness for C1 at a concrete in-flight coordinator state. -/
theorem toggle_recording_processing_noop_witness :
    ({ state := .processing, processing := true, recorder := {},
       dispatched := 1,
       log := [.state_changed .processing "Processing..."] } : AppState).processing
      = true ∧
    toggle_recording
      { state := .processing, processing := true, recorder := {},
        dispatched := 1,
        log := [.state_changed .processing "Processing..."] }
      = { state := .processing, processing := true, recorder := {},
          dispatched := 1,
          log := [.state_changed .processing "Processing..."] } :=
  ⟨rfl, toggle_recording_processing_noop _ rfl⟩

/--
C2 counterexample: a transcription result with no error whose transcript
trims to the empty string.  The coordinator does NOT transition to Idle
with the "No speech detected" message: it publishes the Error state with
the message "Transcription failed", and no completion or no-speech event
appears in the log.
-/
theorem empty_transcript_counterexample :
    ({ text := " ", error := none } : RecognitionResult).error = none ∧
    pyStrip ({ text := " ", error := none } : RecognitionResult).text = "" ∧
    (processAudio { text := " ", error := none }
      { state := .processing, processing := true }).state = SessState.error ∧
    AppEvent.state_changed .idle "No speech detected"
      ∉ (processAudio { text := " ", error := none }
          { state := .processing, processing := true }).log ∧
    (AppEvent.error_occurred "Transcription failed")
      ∈ (processAudio { text := " ", error := none }
          { state := .processing, processing := true }).log := by
  decide

/--
C2 amended: a transcription call returning no error and a transcript that
trims to the empty string is indeed not classified as success, but the
coordinator treats it as a hard error rather than a distinct outcome: it
emits error_occurred "Transcription failed" and transitions to the Error
state (later auto-reverting), instead of going to Idle with a
"No speech detected" message.
-/
theorem empty_transcript_is_hard_error (r : RecognitionResult) (s : AppState)
    (he : r.error = none) (ht : pyStrip r.text = "") :
    r.success = false ∧
    processAudio r s = emit_error "Transcription failed" s ∧
    (processAudio r s).state = SessState.error := by
  have hs : r.success = false := by
    simp [RecognitionResult.success, he, ht]
  refine ⟨hs, ?_, ?_⟩ <;>
    simp [processAudio, hs, he, emit_error, emit_state_changed]

/-- Witness for C2 amended at a concrete whitespace-only result. -/
theorem empty_transcript_is_hard_error_witness :
    ({ text := "  ", error := none } : RecognitionResult).success = false ∧
    processAudio { text := "  ", error := none } ({} : AppState)
      = emit_error "Transcription failed" {} ∧
    (processAudio { text := "  ", error := none } ({} : AppState)).state
      = SessState.error :=
  empty_transcript_is_hard_error { text := "  ", error := none } {}
    (by decide) (by decide)

/--
C3: for a chord configuration with a nonempty primary key, the match
predicate of the Chord Matcher holds iff every modifier flag equals the
presence of one of that modifier token variants in the pressed set and
the primary key token is pressed; an extra pressed modifier that the
chord does not require therefore prevents the match.
-/
theorem check_hotkey_iff_chordMatchSpec (h : Hotkey) (pressed : List String)
    (hkey : pyLower h.key ≠ "") :
    (check_hotkey (some h) pressed = true ↔ chordMatchSpec h pressed) ∧
    ((h.ctrl = false ∧ ("ctrl_l" ∈ pressed ∨ "ctrl_r" ∈ pressed)) ∨
     (h.shift = false ∧ ("shift_l" ∈ pressed ∨ "shift_r" ∈ pressed ∨ "shift" ∈ pressed)) ∨
     (h.alt = false ∧ ("alt_l" ∈ pressed ∨ "alt_r" ∈ pressed ∨ "alt" ∈ pressed)) →
      check_hotkey (some h) pressed = false) := by
  have main : check_hotkey (some h) pressed = true ↔ chordMatchSpec h pressed := by
    obtain ⟨hc, hs, ha, key⟩ := h
    unfold check_hotkey chordMatchSpec
    cases hc <;> cases ha <;> cases hs <;>
      simp_all [List.contains, List.elem_iff, hkey, or_assoc]
  refine ⟨main, fun hextra => ?_⟩
  rcases hb : check_hotkey (some h) pressed with _ | _
  · rfl
  · exfalso
    have hspec := main.mp hb
    rcases hextra with ⟨hf, hm⟩ | ⟨hf, hm⟩ | ⟨hf, hm⟩ <;>
      simp_all [chordMatchSpec]

/-- Witness for C3: Ctrl+Space chord against the set {ctrl_l, space}. -/
theorem check_hotkey_iff_chordMatchSpec_witness :
    pyLower (Hotkey.mk true false false "space").key ≠ "" ∧
    check_hotkey (some (Hotkey.mk true false false "space"))
      ["space", "ctrl_l"] = true ∧
    chordMatchSpec (Hotkey.mk true false false "space") ["space", "ctrl_l"] := by
  have h := check_hotkey_iff_chordMatchSpec
    (Hotkey.mk true false false "space") ["space", "ctrl_l"] (by decide)
  exact ⟨by decide, by decide, h.1.mp (by decide)⟩

/--
C4 counterexample: with the chord Ctrl+Space configured, the key-down
sequence ctrl_l, space, space (the second space down being a key-repeat
of the held primary key) dispatches the callback twice although the
chord became fully matched only once and no release broke the match.
-/
theorem callback_refires_counterexample :
    (runListener (some (Hotkey.mk true false false "space"))
      [.down "ctrl_l", .down "space", .down "space"]).fires = 2 ∧
    riseCount (some (Hotkey.mk true false false "space"))
      [.down "ctrl_l", .down "space", .down "space"] = 1 := by
  decide

/--
C4 amended: the Chord Matcher dispatches its callback on every key-down
event after which the pressed set fully matches the configured chord,
including repeated key-down events for already-held keys; it is not
limited to once per transition into the matched state.
-/
theorem fires_eq_matchedDownCount (hotkey : Option Hotkey)
    (events : List KeyEvent) :
    (runListener hotkey events).fires = matchedDownCount hotkey [] events := by
  simpa using foldl_fires hotkey events [] 0

/--
C5 counterexample: a language hint equal to the literal string "auto" is
not treated as a no-constraint sentinel by either recognizer variant: both
pass the language constraint "auto" through to the underlying engine.
-/
theorem auto_hint_counterexample :
    localLanguageArg (some "auto") = some "auto" ∧
    apiLanguageArg (some "auto") = some "auto" ∧
    localLanguageArg (some "auto") ≠ none ∧
    apiLanguageArg (some "auto") ≠ none := by
  decide

/--
C5 amended: both recognizer variants normalize a region-qualified hint
(a hyphen-free base followed by a hyphen and a region) down to its base
language code before passing it to the engine; the sentinel for which no
language constraint is passed is a null hint or the default hint "en",
not the string "auto", which is passed through unchanged.
-/
theorem language_hint_contract (base region : String)
    (h1 : ∀ c ∈ base.data, c ≠ '-') (h2 : base ≠ "") :
    (localLanguageArg (some (base ++ "-" ++ region)) = some base ∧
     apiLanguageArg (some (base ++ "-" ++ region)) = some base) ∧
    localLanguageArg none = none ∧ apiLanguageArg none = none ∧
    localLanguageArg (some "en") = none ∧ apiLanguageArg (some "en") = none ∧
    localLanguageArg (some "auto") = some "auto" ∧
    apiLanguageArg (some "auto") = some "auto" := by
  have hdata : (base ++ "-" ++ region).data = base.data ++ '-' :: region.data := by
    simp [String.data_append]
  have hne : (base ++ "-" ++ region) ≠ "" := by
    intro hcontra
    have h0 : (base ++ "-" ++ region).data = [] := by rw [hcontra]
    rw [hdata] at h0
    simp at h0
  have hnen : (base ++ "-" ++ region) ≠ "en" := by
    intro hcontra
    have h0 : (base ++ "-" ++ region).data = ['e', 'n'] := by rw [hcontra]
    rw [hdata] at h0
    have hmem : '-' ∈ base.data ++ '-' :: region.data := by simp
    rw [h0] at hmem
    simp at hmem
  have htake : (base.data ++ '-' :: region.data).takeWhile (· != '-')
      = base.data := by
    rw [takeWhile_append_all _ _ _ (fun c hc => by simp [h1 c hc])]
    simp
  have hlocal : localLanguageArg (some (base ++ "-" ++ region)) = some base := by
    simp only [localLanguageArg, hne, hnen, ne_eq, not_false_iff, and_self,
      if_true]
    rw [hdata, htake]
  have hapi : apiLanguageArg (some (base ++ "-" ++ region)) = some base := by
    simp only [apiLanguageArg, apiMapLanguage, hne, hnen, ne_eq, not_false_iff,
      and_self, if_true]
    rw [hdata, htake]
    simp [h2]
  exact ⟨⟨hlocal, hapi⟩, by decide, by decide, by decide, by decide,
    by decide, by decide⟩

/-- Witness for C5 amended at the region-qualified hint pt-BR. -/
theorem language_hint_contract_witness :
    localLanguageArg (some ("pt" ++ "-" ++ "BR")) = some "pt" ∧
    apiLanguageArg (some ("pt" ++ "-" ++ "BR")) = some "pt" :=
  (language_hint_contract "pt" "BR" (by decide) (by decide)).1

/--
C6: the Audio Capture Engine stop call returns none when not recording;
when recording with at least one delivered chunk it returns the finished
recording whose samples are the concatenated chunks and whose duration is
the total number of accumulated samples divided by the 16 kHz sample
rate; when recording with no captured chunks it returns none.
-/
theorem recorderStop_contract (s : RecorderState) :
    (s.recording = false → (recorderStop s).1 = none) ∧
    (s.recording = true → s.audio_data ≠ [] →
      (recorderStop s).1 = some ⟨s.audio_data.flatten,
        (((s.audio_data.map List.length).sum : ℕ) : ℚ) / SAMPLE_RATE⟩) ∧
    (s.recording = true → s.audio_data = [] → (recorderStop s).1 = none) := by
  refine ⟨fun h => ?_, fun h1 h2 => ?_, fun h1 h2 => ?_⟩
  · simp [recorderStop, h]
  · simp [recorderStop, h1, h2, List.length_flatten]
  · simp [recorderStop, h1, h2]

/-- Witness for C6: one two-sample chunk gives duration 2 / 16000. -/
theorem recorderStop_contract_witness :
    (recorderStop { recording := true,
                    audio_data := [[(1 : ℚ)/2, -(1 : ℚ)/4]] }).1
      = some ⟨[(1 : ℚ)/2, -(1 : ℚ)/4], 1/8000⟩ := by
  have h := (recorderStop_contract { recording := true,
                                     audio_data := [[(1 : ℚ)/2, -(1 : ℚ)/4]] }).2.1
    rfl (by decide)
  rw [h]
  norm_num [SAMPLE_RATE]

/--
C7: validation of a finished recording (as the int16 WAV samples the
coordinator hands to validate_audio) rejects any recording shorter than
8000 samples (0.5 s at 16 kHz) regardless of amplitude, rejects an
adequately long recording whose mean absolute amplitude is below the
silence threshold 10, and accepts a recording that is long enough and
loud enough.
-/
theorem validate_samples_contract (samples : List ℤ) :
    (samples.length < 8000 → validate_samples samples = false) ∧
    (8000 ≤ samples.length → meanAbsAmplitude samples < 10 →
      validate_samples samples = false) ∧
    (8000 ≤ samples.length → 10 ≤ meanAbsAmplitude samples →
      validate_samples samples = true) := by
  refine ⟨fun h => ?_, fun h1 h2 => ?_, fun h1 h2 => ?_⟩ <;>
    simp only [validate_samples] <;>
    split_ifs <;> first | rfl | omega | linarith

/--
Witness for C7: an 8000-sample recording of constant amplitude 20 is
accepted, a 7999-sample one is rejected, and an 8000-sample silent
recording is rejected.
-/
theorem validate_samples_contract_witness :
    validate_samples (List.replicate 8000 (20 : ℤ)) = true ∧
    validate_samples (List.replicate 7999 (20 : ℤ)) = false ∧
    validate_samples (List.replicate 8000 (0 : ℤ)) = false := by
  have hmean20 : meanAbsAmplitude (List.replicate 8000 (20 : ℤ)) = 20 := by
    unfold meanAbsAmplitude
    rw [List.map_replicate, List.sum_replicate, List.length_replicate]
    norm_num
  have hmean0 : meanAbsAmplitude (List.replicate 8000 (0 : ℤ)) = 0 := by
    unfold meanAbsAmplitude
    rw [List.map_replicate, List.sum_replicate, List.length_replicate]
    norm_num
  have hlen1 : (List.replicate 8000 (20 : ℤ)).length = 8000 :=
    List.length_replicate 8000 20
  have hlen2 : (List.replicate 7999 (20 : ℤ)).length = 7999 :=
    List.length_replicate 7999 20
  have hlen3 : (List.replicate 8000 (0 : ℤ)).length = 8000 :=
    List.length_replicate 8000 0
  refine ⟨(validate_samples_contract _).2.2 (by rw [hlen1])
      (by rw [hmean20]; norm_num),
    (validate_samples_contract _).1 (by rw [hlen2]; norm_num),
    (validate_samples_contract _).2.1 (by rw [hlen3]) (by rw [hmean0]; norm_num)⟩

/--
C8: the two cleanup_text examples of the spec: the sample sentence with a
filler word and irregular spacing cleans to exactly
"Hello there, how are you", and the empty string cleans to itself.
-/
theorem cleanup_text_examples :
    cleanup_text "um, hello  there ,  how are you" = "Hello there, how are you" ∧
    cleanup_text "" = "" := by
  constructor
  · decide
  · decide

/--
C9: the local recognizer cache invariant. Setting a model name different
from the current one discards the cached handle (and a following load
with the new name performs a fresh load under that name, when no load is
already in progress); setting the same name leaves the whole state
intact; both set_model and load_model preserve the invariant that a
cached handle, whenever present, was loaded under the currently
configured model name; the initial state satisfies it.
-/
theorem set_model_cache_contract (s : LocalWhisperRecognizer) (name : String) :
    (name ≠ s.model_name →
      (set_model s name).model = none ∧ (set_model s name).model_name = name) ∧
    (name ≠ s.model_name → s.loading = false →
      load_model true (set_model s name)
        = (true, { model_name := name, model := some name, loading := false })) ∧
    (name = s.model_name → set_model s name = s) ∧
    (cacheInv s → cacheInv (set_model s name)) ∧
    (∀ loadOk, cacheInv s → cacheInv (load_model loadOk s).2) ∧
    cacheInv { model_name := name, model := none, loading := false } := by
  refine ⟨fun h => ?_, fun h hl => ?_, fun h => ?_, fun hinv => ?_,
    fun loadOk hinv => ?_, ?_⟩
  · simp [set_model, h]
  · simp [set_model, load_model, h, hl]
  · simp [set_model, h]
  · intro n hn
    by_cases hne : name ≠ s.model_name
    · simp [set_model, hne] at hn
    · simp only [set_model, hne, if_false, if_neg hne] at hn ⊢
      exact hinv n hn
  · intro n hn
    by_cases hm : s.model.isSome
    · simp only [load_model, hm, if_true] at hn ⊢
      exact hinv n hn
    · by_cases hl : s.loading
      · simp only [load_model, hm, hl, if_false, if_true] at hn ⊢
        exact hinv n hn
      · cases loadOk <;>
          simp_all [load_model, cacheInv]
  · intro n hn
    simp at hn

/--
Witness for C9: switching the configured model from base (with a cached
base handle) to small drops the cache, a fresh load then loads small, and
re-setting base on the original state changes nothing.
-/
theorem set_model_cache_contract_witness :
    (set_model { model_name := "base", model := some "base", loading := false }
      "small").model = none ∧
    load_model true
      (set_model { model_name := "base", model := some "base", loading := false }
        "small")
      = (true, { model_name := "small", model := some "small", loading := false }) ∧
    set_model { model_name := "base", model := some "base", loading := false }
      "base"
      = { model_name := "base", model := some "base", loading := false } := by
  have h := set_model_cache_contract
    { model_name := "base", model := some "base", loading := false } "small"
  have h2 := set_model_cache_contract
    { model_name := "base", model := some "base", loading := false } "base"
  exact ⟨(h.1 (by decide)).1, h.2.1 (by decide) rfl, h2.2.2.1 rfl⟩

/--
C10: for both recognizer variants, the language hint "en" is the
auto-detect sentinel: no language constraint is passed to the underlying
engine, exactly as for a null hint, even though "en" names a specific
language.
-/
theorem en_hint_is_auto_detect :
    localLanguageArg (some "en") = none ∧
    apiLanguageArg (some "en") = none ∧
    localLanguageArg none = none ∧
    apiLanguageArg none = none := by
  decide

end WhisperVoiceInput
